import Mathlib

/-!
Verification of the performance-analysis app's core: the metric rating and
scoring engine (`getMetricRating`, `calculateOverallScore` from
`src/components/HistoryTimeline.tsx`) and the persisted analysis store
(`performanceStore`). TypeScript numbers are modelled as rationals, optional
metric values as `Option ℚ`, and the zustand store as a pure state-transition
function per action.
-/

namespace PerfApp

/-- The three qualitative ratings returned by `getMetricRating`. -/
inductive Rating where
  | good
  | needsImprovement
  | poor
  deriving DecidableEq, Repr

/-- `MetricThreshold` from HistoryTimeline.tsx: two cut points per metric. -/
structure MetricThreshold where
  good : ℚ
  needsImprovement : ℚ
  deriving DecidableEq, Repr

/-- `METRIC_THRESHOLDS` table: a partial map from metric name to threshold,
mirroring the TypeScript record (absent keys yield `none`; decimal literals
are written as exact rationals, `mkRat 1 10` for `0.1`). -/
def METRIC_THRESHOLDS (name : String) : Option MetricThreshold :=
  if name = "LCP" then some ⟨2500, 4000⟩
  else if name = "FCP" then some ⟨1800, 3000⟩
  else if name = "CLS" then some ⟨mkRat 1 10, mkRat 25 100⟩
  else if name = "FID" then some ⟨100, 300⟩
  else if name = "INP" then some ⟨200, 500⟩
  else if name = "TTFB" then some ⟨800, 1800⟩
  else none

/-- `getMetricRating(name, value)`: threshold lookup with fail-open default. -/
def getMetricRating (name : String) (value : ℚ) : Rating :=
  match METRIC_THRESHOLDS name with
  | none => .good
  | some threshold =>
    if value ≤ threshold.good then .good
    else if value ≤ threshold.needsImprovement then .needsImprovement
    else .poor

/-- `PerformanceEntry["metrics"]`: each of the six Web Vitals is optional. -/
structure MetricSet where
  lcp : Option ℚ
  fcp : Option ℚ
  cls : Option ℚ
  fid : Option ℚ
  inp : Option ℚ
  ttfb : Option ℚ
  deriving DecidableEq, Repr

/-- The per-metric weights of `calculateOverallScore`, keyed by the
lower-case metric field name (unknown keys get `0`, as `weights[key] || 0`). -/
def weights (key : String) : ℚ :=
  if key = "lcp" then 25
  else if key = "fcp" then 15
  else if key = "cls" then 25
  else if key = "fid" then 10
  else if key = "inp" then 15
  else if key = "ttfb" then 10
  else 0

/-- Rating → raw point value used by the scoring algorithm. -/
def ratingPoints : Rating → ℚ
  | .good => 100
  | .needsImprovement => 50
  | .poor => 0

/-- `String.prototype.toUpperCase()` on the ASCII metric keys: uppercase
every character. -/
def toUpperCase (s : String) : String :=
  String.mk (s.data.map Char.toUpper)

/-- The `Object.entries(metrics)` iteration order: field insertion order of
the TypeScript metrics objects. -/
def MetricSet.fields (m : MetricSet) : List (String × Option ℚ) :=
  [("lcp", m.lcp), ("fcp", m.fcp), ("cls", m.cls),
   ("fid", m.fid), ("inp", m.inp), ("ttfb", m.ttfb)]

/-- `calculateOverallScore(metrics)`: accumulate weighted rating points over
the present metrics, then `Math.round(totalScore / totalWeight)` (0 when no
weight was accumulated). `Math.round` is `round` on ℚ: both are ⌊x + 1/2⌋. -/
def calculateOverallScore (m : MetricSet) : ℤ :=
  let tot := m.fields.foldl
    (fun acc kv =>
      match kv.2 with
      | none => acc
      | some value =>
        let rating := getMetricRating (toUpperCase kv.1) value
        let weight := weights kv.1
        let score : ℚ :=
          if rating = .good then 100
          else if rating = .needsImprovement then 50
          else 0
        (acc.1 + score * weight, acc.2 + weight))
    ((0 : ℚ), (0 : ℚ))
  if tot.2 > 0 then round (tot.1 / tot.2) else 0

/-- Spec §4.1: the contribution of one metric to the weighted sum — absent
metrics contribute nothing, a present metric contributes
(rating points) * (its weight). -/
def specContribution (name : String) (w : ℚ) (v : Option ℚ) : ℚ :=
  match v with
  | none => 0
  | some x => ratingPoints (getMetricRating name x) * w

/-- Spec §4.1: the weighted sum over the present metrics, with the fixed
weight table lcp:25, cls:25, inp:15, fcp:15, fid:10, ttfb:10. -/
def specWeightedSum (m : MetricSet) : ℚ :=
  specContribution "LCP" 25 m.lcp + specContribution "FCP" 15 m.fcp +
  specContribution "CLS" 25 m.cls + specContribution "FID" 10 m.fid +
  specContribution "INP" 15 m.inp + specContribution "TTFB" 10 m.ttfb

/-- Spec §4.1: the sum of the weights of the present metrics. -/
def specUsedWeight (m : MetricSet) : ℚ :=
  (if m.lcp.isSome then 25 else 0) + (if m.fcp.isSome then 15 else 0) +
  (if m.cls.isSome then 25 else 0) + (if m.fid.isSome then 10 else 0) +
  (if m.inp.isSome then 15 else 0) + (if m.ttfb.isSome then 10 else 0)

/-- Spec §4.1: final score = round(weighted sum / sum of used weights), and 0
when no metric is present. -/
def scoreSpec (m : MetricSet) : ℤ :=
  if specUsedWeight m = 0 then 0
  else round (specWeightedSum m / specUsedWeight m)

/-! ### The analysis store (`src/store/performanceStore.ts`) -/

/-- `ResourceTiming`: one network sub-resource of an entry. -/
structure ResourceTiming where
  name : String
  initiatorType : String
  duration : ℚ
  transferSize : ℚ
  startTime : ℚ
  deriving DecidableEq, Repr

/-- `PerformanceEntry`: one completed analysis. The timestamp is kept as the
ISO string handed to `new Date(...)`. -/
structure PerformanceEntry where
  id : String
  url : String
  timestamp : String
  metrics : MetricSet
  resourceTimings : List ResourceTiming
  overallScore : ℤ
  deriving DecidableEq, Repr

/-- `HistoricalData`: one calendar-day rollup used for trend charting. -/
structure HistoricalData where
  date : String
  lcp : ℚ
  fcp : ℚ
  cls : ℚ
  ttfb : ℚ
  score : ℚ
  deriving DecidableEq, Repr

/-- The `staticHistoricalData` constant of the store (decimal cls values are
written as exact rationals, e.g. `mkRat 8 100` for `0.08`). -/
def staticHistoricalData : List HistoricalData :=
  [⟨"2024-01-01", 2100, 1400, mkRat 8 100, 520, 78⟩,
   ⟨"2024-01-02", 2250, 1520, mkRat 12 100, 580, 72⟩,
   ⟨"2024-01-03", 1950, 1350, mkRat 6 100, 480, 82⟩,
   ⟨"2024-01-04", 2400, 1600, mkRat 15 100, 620, 68⟩,
   ⟨"2024-01-05", 2050, 1420, mkRat 9 100, 510, 76⟩,
   ⟨"2024-01-06", 1850, 1280, mkRat 5 100, 450, 85⟩,
   ⟨"2024-01-07", 2150, 1480, mkRat 11 100, 560, 74⟩,
   ⟨"2024-01-08", 2300, 1550, mkRat 13 100, 600, 70⟩,
   ⟨"2024-01-09", 1900, 1320, mkRat 7 100, 470, 80⟩,
   ⟨"2024-01-10", 2000, 1380, mkRat 8 100, 500, 77⟩,
   ⟨"2024-01-11", 2200, 1500, mkRat 10 100, 550, 73⟩,
   ⟨"2024-01-12", 1800, 1250, mkRat 4 100, 420, 88⟩,
   ⟨"2024-01-13", 2350, 1580, mkRat 14 100, 610, 69⟩,
   ⟨"2024-01-14", 2100, 1450, mkRat 9 100, 530, 75⟩,
   ⟨"2024-01-15", 1950, 1340, mkRat 6 100, 490, 81⟩]

/-- The `staticSampleEntries` constant of the store. -/
def staticSampleEntries : List PerformanceEntry :=
  [⟨"sample-entry-1", "https://example.com", "2024-01-15T12:00:00Z",
    ⟨some 2100, some 1450, some (mkRat 8 100), some 95, some 180, some 520⟩,
    [⟨"main.js", "script", 220, 150000, 100⟩,
     ⟨"styles.css", "link", 85, 25000, 50⟩,
     ⟨"hero.jpg", "img", 340, 500000, 200⟩], 75⟩,
   ⟨"sample-entry-2", "https://example.com/products", "2024-01-15T11:00:00Z",
    ⟨some 2450, some 1680, some (mkRat 12 100), some 120, some 220, some 610⟩,
    [⟨"main.js", "script", 280, 180000, 100⟩,
     ⟨"styles.css", "link", 95, 28000, 50⟩,
     ⟨"products.jpg", "img", 420, 650000, 200⟩], 62⟩,
   ⟨"sample-entry-3", "https://example.com/about", "2024-01-15T10:00:00Z",
    ⟨some 1850, some 1280, some (mkRat 5 100), some 75, some 150, some 420⟩,
    [⟨"main.js", "script", 180, 120000, 100⟩,
     ⟨"styles.css", "link", 70, 22000, 50⟩,
     ⟨"team.jpg", "img", 280, 380000, 200⟩], 88⟩,
   ⟨"sample-entry-4", "https://example.com/contact", "2024-01-15T09:00:00Z",
    ⟨some 1720, some 1150, some (mkRat 3 100), some 65, some 130, some 380⟩,
    [⟨"main.js", "script", 160, 100000, 100⟩,
     ⟨"styles.css", "link", 60, 20000, 50⟩,
     ⟨"map.png", "img", 220, 280000, 200⟩], 92⟩,
   ⟨"sample-entry-5", "https://example.com/blog", "2024-01-15T08:00:00Z",
    ⟨some 2680, some 1820, some (mkRat 18 100), some 145, some 280, some 720⟩,
    [⟨"main.js", "script", 320, 200000, 100⟩,
     ⟨"styles.css", "link", 110, 32000, 50⟩,
     ⟨"blog-hero.jpg", "img", 480, 750000, 200⟩], 50⟩]

/-- `PerformanceState` minus the action closures: the data fields of the
zustand store. -/
structure AnalysisState where
  entries : List PerformanceEntry
  historicalData : List HistoricalData
  isMonitoring : Bool
  currentUrl : String
  isHydrated : Bool
  deriving DecidableEq, Repr

/-- The store's initial (seeded) state. -/
def initialState : AnalysisState :=
  ⟨staticSampleEntries, staticHistoricalData, false, "", false⟩

/-- `addEntry(entry)`: spread the payload, override `id` with the freshly
generated uuid (`uuidv4()` is modelled as the external input `freshId`),
prepend, and `slice(0, 100)`. -/
def addEntry (freshId : String) (entry : PerformanceEntry)
    (s : AnalysisState) : AnalysisState :=
  { s with entries := ({ entry with id := freshId } :: s.entries).take 100 }

/-- `removeEntry(id)`: keep exactly the entries whose id differs. -/
def removeEntry (id : String) (s : AnalysisState) : AnalysisState :=
  { s with entries := s.entries.filter (fun e => e.id ≠ id) }

/-- `clearEntries()`. -/
def clearEntries (s : AnalysisState) : AnalysisState :=
  { s with entries := [] }

/-- `setMonitoring(isMonitoring)`. -/
def setMonitoring (b : Bool) (s : AnalysisState) : AnalysisState :=
  { s with isMonitoring := b }

/-- `setCurrentUrl(url)`. -/
def setCurrentUrl (url : String) (s : AnalysisState) : AnalysisState :=
  { s with currentUrl := url }

/-- `addHistoricalData(data)`: spread the payload, override `date` with the
UTC date portion of "now" (`new Date().toISOString().split("T")[0]`, modelled
as the external input `today`), append, and `slice(-90)`. -/
def addHistoricalData (today : String) (data : HistoricalData)
    (s : AnalysisState) : AnalysisState :=
  let hd := s.historicalData ++ [{ data with date := today }]
  { s with historicalData := hd.drop (hd.length - 90) }

/-- `initializeSampleData()`: seed both sequences with the static demo data,
but only when the entries sequence is empty. -/
def initializeSampleData (s : AnalysisState) : AnalysisState :=
  if s.entries.length = 0 then
    { s with entries := staticSampleEntries,
             historicalData := staticHistoricalData }
  else s

/-- `setHydrated(hydrated)`. -/
def setHydrated (b : Bool) (s : AnalysisState) : AnalysisState :=
  { s with isHydrated := b }

/-- The capacity bound the store is meant to maintain: at most 100 entries
and at most 90 historical points. -/
def capacityInv (s : AnalysisState) : Prop :=
  s.entries.length ≤ 100 ∧ s.historicalData.length ≤ 90

/-- One step of the store: any action the application can invoke. The only
call site of `setHydrated` in the program is the `onRehydrateStorage`
callback, which invokes `setHydrated(true)` when the durable-state load
completes — modelled by the `rehydrate` step. -/
inductive Step : AnalysisState → AnalysisState → Prop where
  | add (f : String) (p : PerformanceEntry) (s : AnalysisState) :
      Step s (addEntry f p s)
  | remove (id : String) (s : AnalysisState) : Step s (removeEntry id s)
  | clear (s : AnalysisState) : Step s (clearEntries s)
  | monitor (b : Bool) (s : AnalysisState) : Step s (setMonitoring b s)
  | url (u : String) (s : AnalysisState) : Step s (setCurrentUrl u s)
  | hist (today : String) (d : HistoricalData) (s : AnalysisState) :
      Step s (addHistoricalData today d s)
  | seed (s : AnalysisState) : Step s (initializeSampleData s)
  | rehydrate (s : AnalysisState) : Step s (setHydrated true s)

/-! ### Concrete probe inputs for the bounded-capacity scenarios -/

/-- The i-th fresh id used in a probe run (pairwise distinct). -/
def probeId (i : ℕ) : String :=
  String.mk (List.replicate i 'a')

/-- The i-th entry payload of a probe run: payloads are pairwise distinct
(they differ in `overallScore`). -/
def probeEntry (i : ℕ) : PerformanceEntry :=
  ⟨"", "", "", ⟨none, none, none, none, none, none⟩, [], (i : ℤ)⟩

/-- `addEntry` applied `n` times with distinct payloads and fresh ids. -/
def iterateAddEntry (n : ℕ) (s : AnalysisState) : AnalysisState :=
  (List.range n).foldl (fun st i => addEntry (probeId i) (probeEntry i) st) s

/-- The date stamp of the i-th probe call to `addHistoricalData`. -/
def probeDate (i : ℕ) : String :=
  String.mk (List.replicate i 'd')

/-- A fixed historical-point payload used by the probe runs. -/
def probePoint : HistoricalData :=
  ⟨"", 0, 0, 0, 0, 0⟩

/-- `addHistoricalData` applied `n` times on consecutive probe dates. -/
def iterateAddHistoricalData (n : ℕ) (s : AnalysisState) : AnalysisState :=
  (List.range n).foldl (fun st i => addHistoricalData (probeDate i) probePoint st) s

/-- The store state with both sequences empty (used to start probe runs). -/
def emptyDataState : AnalysisState :=
  ⟨[], [], false, "", false⟩

/-! ### Theorems -/

example : getMetricRating "LCP" 2500 = .good := by decide
example : getMetricRating "LCP" 2501 = .needsImprovement := by decide
example : getMetricRating "CLS" (mkRat 1 10) = .good := by decide
example : getMetricRating "XYZ" 99999 = .good := by decide

/-- `toUpperCase` evaluated on the six metric keys. -/
lemma toUpperCase_keys :
    toUpperCase "lcp" = "LCP" ∧ toUpperCase "fcp" = "FCP" ∧
    toUpperCase "cls" = "CLS" ∧ toUpperCase "fid" = "FID" ∧
    toUpperCase "inp" = "INP" ∧ toUpperCase "ttfb" = "TTFB" := by
  decide

example :
    calculateOverallScore ⟨some 3000, none, some (mkRat 5 100), none, none, none⟩ = 75 := by
  simp +decide [calculateOverallScore, MetricSet.fields, getMetricRating,
    METRIC_THRESHOLDS, weights, toUpperCase_keys.1, toUpperCase_keys.2.2.1]
  norm_num [round_eq]

example :
    calculateOverallScore ⟨none, none, none, none, none, none⟩ = 0 := by
  norm_num [calculateOverallScore, MetricSet.fields]

/-- The raw point value computed by the if-chain inside
`calculateOverallScore` is exactly `ratingPoints`. -/
lemma if_chain_eq_ratingPoints (r : Rating) :
    (if r = .good then (100 : ℚ) else if r = .needsImprovement then 50 else 0)
      = ratingPoints r := by
  cases r <;> simp +decide [ratingPoints]

/-- C1: for every metric name in the threshold table and every value, the
rating is `good` up to and including the `good` cut point, `needs-improvement`
strictly above it up to and including the `needsImprovement` cut point, and
`poor` strictly above that; the table is exactly LCP:{2500,4000},
FCP:{1800,3000}, CLS:{0.1,0.25}, FID:{100,300}, INP:{200,500},
TTFB:{800,1800}. -/
theorem getMetricRating_rates_by_thresholds :
    METRIC_THRESHOLDS "LCP" = some ⟨2500, 4000⟩ ∧
    METRIC_THRESHOLDS "FCP" = some ⟨1800, 3000⟩ ∧
    METRIC_THRESHOLDS "CLS" = some ⟨(0.1 : ℚ), (0.25 : ℚ)⟩ ∧
    METRIC_THRESHOLDS "FID" = some ⟨100, 300⟩ ∧
    METRIC_THRESHOLDS "INP" = some ⟨200, 500⟩ ∧
    METRIC_THRESHOLDS "TTFB" = some ⟨800, 1800⟩ ∧
    ∀ (name : String) (t : MetricThreshold) (v : ℚ),
      METRIC_THRESHOLDS name = some t →
        (v ≤ t.good → getMetricRating name v = .good) ∧
        (t.good < v → v ≤ t.needsImprovement →
          getMetricRating name v = .needsImprovement) ∧
        (t.needsImprovement < v → getMetricRating name v = .poor) := by
  refine ⟨by decide, by decide, ?_, by decide, by decide, by decide, ?_⟩
  · have h : (mkRat 1 10 : ℚ) = 0.1 ∧ (mkRat 25 100 : ℚ) = 0.25 := by
      constructor <;> · rw [Rat.mkRat_eq_div]; norm_num
    simp [METRIC_THRESHOLDS, h.1, h.2]
  · intro name t v hlook
    have hlt : t.good < t.needsImprovement := by
      unfold METRIC_THRESHOLDS at hlook
      split_ifs at hlook <;> simp only [Option.some_inj] at hlook <;>
        subst hlook <;> norm_num
    refine ⟨fun hg => ?_, fun hg hni => ?_, fun hp => ?_⟩
    · simp [getMetricRating, hlook, hg]
    · simp [getMetricRating, hlook, not_le.mpr hg, hni]
    · have hng : ¬ v ≤ t.good := not_le.mpr (lt_trans hlt hp)
      simp [getMetricRating, hlook, hng, not_le.mpr hp]

/-- Witness for C1 at concrete inputs: LCP rates good at its cut point,
needs-improvement just above, poor above the second cut point. -/
theorem getMetricRating_rates_by_thresholds_witness :
    getMetricRating "LCP" 2500 = .good ∧
    getMetricRating "LCP" 3000 = .needsImprovement ∧
    getMetricRating "LCP" 5000 = .poor := by
  have h := getMetricRating_rates_by_thresholds.2.2.2.2.2.2
  refine ⟨(h "LCP" ⟨2500, 4000⟩ 2500 (by decide)).1 (by norm_num),
    (h "LCP" ⟨2500, 4000⟩ 3000 (by decide)).2.1 (by norm_num) (by norm_num),
    (h "LCP" ⟨2500, 4000⟩ 5000 (by decide)).2.2 (by norm_num)⟩

/-- C3: rating a metric name that is not in the threshold table never fails
and returns `good` (fail-open), for any non-negative value. -/
theorem getMetricRating_unknown_good (name : String) (v : ℚ)
    (h : METRIC_THRESHOLDS name = none) (_hv : 0 ≤ v) :
    getMetricRating name v = .good := by
  simp [getMetricRating, h]

/-- Witness for C3: the unknown metric name "XYZ" rates good at value 5. -/
theorem getMetricRating_unknown_good_witness :
    getMetricRating "XYZ" 5 = .good :=
  getMetricRating_unknown_good "XYZ" 5 (by decide) (by norm_num)

/-- C2: `calculateOverallScore` equals the spec's weighted-average formula —
round(weighted sum of rating points / sum of the present metrics' weights),
0 when no metric is present — and in particular
score({lcp:3000, cls:0.05}) = 75. -/
theorem calculateOverallScore_eq_spec :
    (∀ m : MetricSet, calculateOverallScore m = scoreSpec m) ∧
    calculateOverallScore ⟨some 3000, none, some (mkRat 5 100),
      none, none, none⟩ = 75 := by
  constructor
  · rintro ⟨l, f, c, fi, i, t⟩
    cases l <;> cases f <;> cases c <;> cases fi <;> cases i <;> cases t <;>
      · simp +decide [calculateOverallScore, MetricSet.fields,
          scoreSpec, specUsedWeight, specWeightedSum, specContribution,
          weights, toUpperCase_keys.1, toUpperCase_keys.2.1,
          toUpperCase_keys.2.2.1, toUpperCase_keys.2.2.2.1,
          toUpperCase_keys.2.2.2.2.1, toUpperCase_keys.2.2.2.2.2,
          if_chain_eq_ratingPoints]
        try norm_num
  · simp +decide [calculateOverallScore, MetricSet.fields, getMetricRating,
      METRIC_THRESHOLDS, weights, toUpperCase_keys.1, toUpperCase_keys.2.2.1]
    norm_num [round_eq]

/-- C9: `clearEntries` empties the entries sequence and leaves every other
field of the state — historicalData, isMonitoring, currentUrl, isHydrated —
exactly as it was. -/
theorem clearEntries_frame (s : AnalysisState) :
    (clearEntries s).entries = [] ∧
    (clearEntries s).historicalData = s.historicalData ∧
    (clearEntries s).isMonitoring = s.isMonitoring ∧
    (clearEntries s).currentUrl = s.currentUrl ∧
    (clearEntries s).isHydrated = s.isHydrated :=
  ⟨rfl, rfl, rfl, rfl, rfl⟩

/-- C8: `initializeSampleData` is a no-op whenever entries is non-empty; when
entries is empty it sets entries and historicalData to the fixed demo dataset
(5 sample entries, 15 historical points) regardless of the prior
historicalData. -/
theorem initializeSampleData_seeds_iff_empty (s : AnalysisState) :
    (s.entries ≠ [] → initializeSampleData s = s) ∧
    (s.entries = [] →
      initializeSampleData s =
        { s with entries := staticSampleEntries,
                 historicalData := staticHistoricalData } ∧
      staticSampleEntries.length = 5 ∧ staticHistoricalData.length = 15) := by
  constructor
  · intro h
    simp [initializeSampleData, List.length_eq_zero, h]
  · intro h
    refine ⟨?_, rfl, rfl⟩
    simp [initializeSampleData, h]

/-- Witness for C8: the seeded initial state (non-empty entries) is left
unchanged; the empty state gets both demo sequences. -/
theorem initializeSampleData_seeds_iff_empty_witness :
    initializeSampleData initialState = initialState ∧
    initializeSampleData emptyDataState =
      { emptyDataState with entries := staticSampleEntries,
                            historicalData := staticHistoricalData } :=
  ⟨(initializeSampleData_seeds_iff_empty initialState).1 (by decide),
   ((initializeSampleData_seeds_iff_empty emptyDataState).2 rfl).1⟩

/-- C4: `addEntry` ignores any id on the caller's payload, stores the payload
at the front under the store-generated fresh id, and truncates to the most
recent 100 entries; 101 additions with distinct payloads starting from an
empty entries sequence leave exactly 100 entries headed by the 101st
insertion. -/
theorem addEntry_spec :
    (∀ (f x : String) (p : PerformanceEntry) (s : AnalysisState),
      addEntry f { p with id := x } s = addEntry f p s) ∧
    (∀ (f : String) (p : PerformanceEntry) (s : AnalysisState),
      (addEntry f p s).entries = { p with id := f } :: s.entries.take 99) ∧
    (∀ (f : String) (p : PerformanceEntry) (s : AnalysisState),
      (addEntry f p s).entries.length = min (s.entries.length + 1) 100) ∧
    (iterateAddEntry 101 emptyDataState).entries.length = 100 ∧
    (iterateAddEntry 101 emptyDataState).entries.head? =
      some { probeEntry 100 with id := probeId 100 } := by
  refine ⟨fun f x p s => rfl, fun f p s => ?_, fun f p s => ?_, ?_, ?_⟩
  · show (({ p with id := f } :: s.entries).take 100 = _)
    rw [show (100 : ℕ) = 99 + 1 from rfl, List.take_succ_cons]
  · show (({ p with id := f } :: s.entries).take 100).length = _
    rw [List.length_take, List.length_cons, Nat.min_comm]
  · set_option maxRecDepth 4000 in decide
  · set_option maxRecDepth 4000 in decide

/-- C5: every store operation preserves the capacity bounds (≤ 100 entries,
≤ 90 historical points), and the seeded initial state satisfies them. -/
theorem store_ops_preserve_capacity (s : AnalysisState) (h : capacityInv s) :
    capacityInv initialState ∧
    ∀ (f id today u : String) (p : PerformanceEntry) (d : HistoricalData)
      (b hy : Bool),
      capacityInv (addEntry f p s) ∧ capacityInv (removeEntry id s) ∧
      capacityInv (clearEntries s) ∧
      capacityInv (addHistoricalData today d s) ∧
      capacityInv (initializeSampleData s) ∧
      capacityInv (setMonitoring b s) ∧ capacityInv (setCurrentUrl u s) ∧
      capacityInv (setHydrated hy s) := by
  obtain ⟨h1, h2⟩ := h
  refine ⟨⟨by decide, by decide⟩, ?_⟩
  intro f id today u p d b hy
  refine ⟨⟨?_, h2⟩, ⟨le_trans (List.length_filter_le _ _) h1, h2⟩,
    ⟨by simp [clearEntries], h2⟩, ⟨h1, ?_⟩, ?_, ⟨h1, h2⟩, ⟨h1, h2⟩, ⟨h1, h2⟩⟩
  · show (({ p with id := f } :: s.entries).take 100).length ≤ 100
    rw [List.length_take]
    omega
  · show ((s.historicalData ++ [{ d with date := today }]).drop _).length ≤ 90
    rw [List.length_drop, List.length_append]
    omega
  · unfold initializeSampleData
    split
    · exact ⟨show staticSampleEntries.length ≤ 100 by decide,
             show staticHistoricalData.length ≤ 90 by decide⟩
    · exact ⟨h1, h2⟩

/-- Witness for C5: both append operations keep the bounds from the seeded
initial state. -/
theorem store_ops_preserve_capacity_witness :
    capacityInv (addEntry (probeId 0) (probeEntry 0) initialState) ∧
    capacityInv (addHistoricalData (probeDate 0) probePoint initialState) := by
  have h := (store_ops_preserve_capacity initialState
    ⟨by decide, by decide⟩).2 (probeId 0) "" (probeDate 0) ""
    (probeEntry 0) probePoint false false
  exact ⟨h.1, h.2.2.2.1⟩

/-- C6: `addHistoricalData` appends the payload stamped with the current UTC
date to the end of the sequence and keeps the most recent 90 points (oldest
dropped first); a point is appended even when its date is already present
(two same-day calls yield two points with the same date key), and 91 calls
from an empty sequence leave exactly 90 points with the first one dropped. -/
theorem addHistoricalData_spec :
    (∀ (today : String) (d : HistoricalData) (s : AnalysisState),
      (addHistoricalData today d s).historicalData =
        (s.historicalData ++ [{ d with date := today }]).drop
          (s.historicalData.length + 1 - 90)) ∧
    (∀ (today : String) (d : HistoricalData) (s : AnalysisState),
      s.historicalData.length < 90 →
      (addHistoricalData today d s).historicalData =
        s.historicalData ++ [{ d with date := today }]) ∧
    (∀ (today : String) (d : HistoricalData) (s : AnalysisState),
      (addHistoricalData today d s).historicalData.getLast? =
        some { d with date := today }) ∧
    (addHistoricalData "2024-02-02" probePoint
        (addHistoricalData "2024-02-02" probePoint emptyDataState)).historicalData =
      [{ probePoint with date := "2024-02-02" },
       { probePoint with date := "2024-02-02" }] ∧
    (iterateAddHistoricalData 91 emptyDataState).historicalData =
      ((List.range 91).drop 1).map
        (fun i => { probePoint with date := probeDate i }) := by
  refine ⟨fun today d s => ?_, fun today d s hlen => ?_, fun today d s => ?_,
    ?_, ?_⟩
  · simp [addHistoricalData]
  · have h0 : s.historicalData.length + 1 - 90 = 0 := by omega
    simp [addHistoricalData, h0]
  · show ((s.historicalData ++ [{ d with date := today }]).drop _).getLast? = _
    rw [List.drop_append_eq_append_drop]
    have h0 : (s.historicalData ++ [{ d with date := today }]).length - 90 -
        s.historicalData.length = 0 := by
      simp only [List.length_append, List.length_singleton]
      omega
    rw [h0, List.drop_zero]
    simp
  · set_option maxRecDepth 4000 in decide
  · set_option maxRecDepth 4000 in decide

/-- Witness for C6 (for the under-capacity clause): adding a point to the
seeded state (15 points) appends it at the end with its date stamp. -/
theorem addHistoricalData_spec_witness :
    (addHistoricalData "2024-03-01" probePoint initialState).historicalData =
      staticHistoricalData ++ [{ probePoint with date := "2024-03-01" }] :=
  addHistoricalData_spec.2.1 "2024-03-01" probePoint initialState (by decide)

/-- C7: `removeEntry(id)` removes the entry with that id (when the store's
ids are duplicate-free, as store-generated ids are) leaving all other entries
in their original order, and is a complete no-op — whole state unchanged —
when no entry carries the id. -/
theorem removeEntry_spec (s : AnalysisState) (id : String) :
    ((∀ e ∈ s.entries, e.id ≠ id) → removeEntry id s = s) ∧
    (∀ (l1 l2 : List PerformanceEntry) (e : PerformanceEntry),
      s.entries = l1 ++ e :: l2 → e.id = id →
      ((l1 ++ e :: l2).map PerformanceEntry.id).Nodup →
      (removeEntry id s).entries = l1 ++ l2) := by
  constructor
  · intro h
    obtain ⟨en, hd, m, u, hy⟩ := s
    have hfil : en.filter (fun e => e.id ≠ id) = en :=
      List.filter_eq_self.mpr (fun a ha => by simpa using h a ha)
    simp only [removeEntry, hfil]
  · intro l1 l2 e hsplit hid hnod
    rw [List.map_append, List.map_cons] at hnod
    rw [List.nodup_append] at hnod
    obtain ⟨hn1, hn2, hdisj⟩ := hnod
    have he_not_l2 : e.id ∉ l2.map PerformanceEntry.id :=
      (List.nodup_cons.mp hn2).1
    have hl1 : ∀ a ∈ l1, a.id ≠ id := by
      intro a ha hcontra
      exact hdisj (List.mem_map_of_mem _ ha)
        (by rw [hcontra, ← hid]; exact List.mem_cons_self _ _)
    have hl2 : ∀ a ∈ l2, a.id ≠ id := by
      intro a ha hcontra
      exact he_not_l2 (by rw [hid, ← hcontra]; exact List.mem_map_of_mem _ ha)
    show s.entries.filter (fun e => e.id ≠ id) = l1 ++ l2
    have hf1 : l1.filter (fun e => e.id ≠ id) = l1 :=
      List.filter_eq_self.mpr (fun a ha => by simpa using hl1 a ha)
    have hf2 : l2.filter (fun e => e.id ≠ id) = l2 :=
      List.filter_eq_self.mpr (fun a ha => by simpa using hl2 a ha)
    rw [hsplit, List.filter_append, hf1, List.filter_cons]
    simp [hid, hf2]
    exact fun a ha => hl2 a ha

/-- Witness for C7: removing a missing id from the seeded state is the
identity; removing "sample-entry-1" drops exactly the first sample entry. -/
theorem removeEntry_spec_witness :
    removeEntry "missing-id" initialState = initialState ∧
    (removeEntry "sample-entry-1" initialState).entries =
      staticSampleEntries.tail := by
  constructor
  · exact (removeEntry_spec initialState "missing-id").1 (by decide)
  · exact (removeEntry_spec initialState "sample-entry-1").2 []
      staticSampleEntries.tail (staticSampleEntries.headD (probeEntry 0))
      (by decide) (by decide) (by decide)

/-- `initializeSampleData` never touches the hydration flag. -/
lemma initializeSampleData_isHydrated (s : AnalysisState) :
    (initializeSampleData s).isHydrated = s.isHydrated := by
  unfold initializeSampleData
  split <;> rfl

/-- C10: `isHydrated` starts false in the initial state; the rehydration
callback's `setHydrated(true)` makes it true; every step of the store either
preserves the flag or flips it from false to true, and along any execution
(reflexive-transitive closure of `Step`) it never goes from true back to
false. -/
theorem isHydrated_monotone :
    initialState.isHydrated = false ∧
    (∀ s : AnalysisState, (setHydrated true s).isHydrated = true) ∧
    (∀ s t : AnalysisState, Step s t →
      t.isHydrated = s.isHydrated ∨
        (s.isHydrated = false ∧ t.isHydrated = true)) ∧
    (∀ s t : AnalysisState, Relation.ReflTransGen Step s t →
      s.isHydrated = true → t.isHydrated = true) := by
  have hstep : ∀ s t : AnalysisState, Step s t →
      t.isHydrated = s.isHydrated ∨
        (s.isHydrated = false ∧ t.isHydrated = true) := by
    intro s t hst
    cases hst with
    | add f p s => exact Or.inl rfl
    | remove id s => exact Or.inl rfl
    | clear s => exact Or.inl rfl
    | monitor b s => exact Or.inl rfl
    | url u s => exact Or.inl rfl
    | hist today d s => exact Or.inl rfl
    | seed s => exact Or.inl (initializeSampleData_isHydrated s)
    | rehydrate s =>
      cases hs : s.isHydrated with
      | true => exact Or.inl rfl
      | false => exact Or.inr ⟨rfl, rfl⟩
  refine ⟨rfl, fun s => rfl, hstep, ?_⟩
  intro s t h hhyd
  induction h with
  | refl => exact hhyd
  | tail _hab hbc ih =>
    rcases hstep _ _ hbc with heq | ⟨_, htrue⟩
    · rw [heq]; exact ih
    · exact htrue

/-- Witness for C10: after rehydration the flag stays true across a further
step. -/
theorem isHydrated_monotone_witness :
    (clearEntries (setHydrated true initialState)).isHydrated = true :=
  isHydrated_monotone.2.2.2 (setHydrated true initialState)
    (clearEntries (setHydrated true initialState))
    (Relation.ReflTransGen.single (Step.clear _)) rfl

end PerfApp
